import Mathlib

/- Verification model of src/APP_CODE.py, the Wealth Ultima benefit-illustration
   demo.  Monetary amounts and rates are rational numbers.  The source computes
   the monthly growth rates as pow(1 + r, 1/12) - 1 in floating point (lines
   69-70); those precomputed monthly rates, together with the annual fund
   management charge (line 44), are parameters of the model.  The per-month
   python lists are kept in the same (append at the end) order as the source.
   The duplicate lists fund_4_monthly / fund_8_monthly (lines 75-76) always
   hold the same values as end_of_month_fv4 / end_of_month_fv8 and are never
   read by the aggregation, so they are not tracked separately. -/

namespace Calc4

/-- Engine-level inputs: the user scalars of lines 23-48 together with the
precomputed monthly return rates of lines 69-70 and the annual FMC rate. -/
structure Params where
  annualPremium : ℚ
  sumAssured : ℚ
  policyTerm : ℕ
  ppt : ℕ
  monthlyReturn4 : ℚ
  monthlyReturn8 : ℚ
  fmc : ℚ

/-- Line 71: monthly_fmc = fmc / 12.0. -/
def monthlyFmc (p : Params) : ℚ := p.fmc / 12

/-- Lines 92-93: year index of a 1-based month. -/
def yearOfMonth (m : ℕ) : ℕ := (m - 1) / 12 + 1

/-- Lines 103-105: annual premium is received in the first month of each
policy year while the policy year is within the premium paying term. -/
def premiumFor (p : Params) (m : ℕ) : ℚ :=
  if (m - 1) % 12 = 0 ∧ yearOfMonth m ≤ p.ppt then p.annualPremium else 0

/-- Lines 107-118: premium allocation charge percentage for the month. -/
def pacPctFor (p : Params) (m : ℕ) : ℚ :=
  if 0 < premiumFor p m then
    if yearOfMonth m = 1 then 6 / 100
    else if 2 ≤ yearOfMonth m ∧ yearOfMonth m ≤ 5 then 4 / 100
    else 0
  else 0

/-- Line 115 resp. 118: pac_amount = premium * pac_pct (0 when no premium). -/
def pacFor (p : Params) (m : ℕ) : ℚ := premiumFor p m * pacPctFor p m

/-- Lines 120-125: policy admin charge, 1.65 percent of annual premium for the
first 5 policy years, apportioned monthly. -/
def adminMonthlyFor (p : Params) (m : ℕ) : ℚ :=
  (if 1 ≤ yearOfMonth m ∧ yearOfMonth m ≤ 5 then 165 / 10000 * p.annualPremium else 0) / 12

/-- Lines 127-128: other_charges = pac_amount + admin_monthly. -/
def otherFor (p : Params) (m : ℕ) : ℚ := pacFor p m + adminMonthlyFor p m

/-- Lines 149-159 for the 4 percent scenario: the net allocated premium is
added to the fund and the fund grows by the monthly return net of FMC. -/
def postGrowth4 (p : Params) (fv : ℚ) (m : ℕ) : ℚ :=
  (fv + (premiumFor p m - pacFor p m)) * (1 + (p.monthlyReturn4 - monthlyFmc p))

/-- Lines 149-160 for the 8 percent scenario. -/
def postGrowth8 (p : Params) (fv : ℚ) (m : ℕ) : ℚ :=
  (fv + (premiumFor p m - pacFor p m)) * (1 + (p.monthlyReturn8 - monthlyFmc p))

/-- Lines 164-172: monthly mortality charge computed from a post-growth fund
value x: annual mortality is 0.1 percent of max(max(x, SA) - x, 0),
apportioned monthly. -/
def mortMonth (p : Params) (x : ℚ) : ℚ :=
  1 / 1000 * max (max x p.sumAssured - x) 0 / 12

/-- Lines 174-176: GST is 18 percent of (mortality + other charges). -/
def gstMonth (p : Params) (x : ℚ) (m : ℕ) : ℚ :=
  18 / 100 * (mortMonth p x + otherFor p m)

/-- Lines 179-183 for the 4 percent scenario: deduct admin, mortality and GST
from the post-growth fund, then clamp at zero. -/
def clamped4 (p : Params) (fv : ℚ) (m : ℕ) : ℚ :=
  max (postGrowth4 p fv m -
    (adminMonthlyFor p m + mortMonth p (postGrowth4 p fv m) +
      gstMonth p (postGrowth4 p fv m) m)) 0

/-- Lines 180-184 for the 8 percent scenario. -/
def clamped8 (p : Params) (fv : ℚ) (m : ℕ) : ℚ :=
  max (postGrowth8 p fv m -
    (adminMonthlyFor p m + mortMonth p (postGrowth8 p fv m) +
      gstMonth p (postGrowth8 p fv m) m)) 0

/-- The evolving simulation state: the two fund values (lines 88-89), the
end-of-month fund value lists (lines 96-97) and the per-month tracking lists
(lines 75-85).  The source keeps mortality and GST as lists of pairs; they are
split into two lists per charge here. -/
structure SimState where
  fv4 : ℚ
  fv8 : ℚ
  eom4 : List ℚ
  eom8 : List ℚ
  prems : List ℚ
  pacs : List ℚ
  admins : List ℚ
  morts4 : List ℚ
  morts8 : List ℚ
  gsts4 : List ℚ
  gsts8 : List ℚ
  others : List ℚ
  guars : List ℚ
  loys : List ℚ
  boos : List ℚ

/-- The state before the first month: zero funds, empty lists. -/
def initState : SimState :=
  ⟨0, 0, [], [], [], [], [], [], [], [], [], [], [], [], []⟩

/-- Lines 100-201: the per-month pipeline up to (and including) recording the
monthly values.  The provisional mortality and GST of lines 130-144 feed
nothing downstream (the deduction recomputes both from the post-growth funds)
and are not tracked.  The addition lists receive a zero placeholder
(lines 199-201). -/
def monthCore (p : Params) (st : SimState) (m : ℕ) : SimState :=
  { fv4 := clamped4 p st.fv4 m
    fv8 := clamped8 p st.fv8 m
    eom4 := st.eom4 ++ [clamped4 p st.fv4 m]
    eom8 := st.eom8 ++ [clamped8 p st.fv8 m]
    prems := st.prems ++ [premiumFor p m]
    pacs := st.pacs ++ [pacFor p m]
    admins := st.admins ++ [adminMonthlyFor p m]
    morts4 := st.morts4 ++ [mortMonth p (postGrowth4 p st.fv4 m)]
    morts8 := st.morts8 ++ [mortMonth p (postGrowth8 p st.fv8 m)]
    gsts4 := st.gsts4 ++ [gstMonth p (postGrowth4 p st.fv4 m) m]
    gsts8 := st.gsts8 ++ [gstMonth p (postGrowth8 p st.fv8 m) m]
    others := st.others ++ [otherFor p m]
    guars := st.guars ++ [0]
    loys := st.loys ++ [0]
    boos := st.boos ++ [0] }

/-- Lines 207-212: average of the trailing 12 end-of-month fund values
(average of all of them when fewer than 12 exist). -/
def avgLast12 (l : List ℚ) : ℚ :=
  if 12 ≤ l.length then ((l.drop (l.length - 12)).sum) / 12
  else l.sum / (l.length : ℚ)

/-- Lines 229-231: average of the trailing n end-of-month fund values, or of
all available values when fewer than n exist (0 when none exist). -/
def avgLastN (l : List ℚ) (n : ℕ) : ℚ :=
  if 0 < min l.length n then
    ((l.drop (l.length - min l.length n)).sum) / ((min l.length n : ℕ) : ℚ)
  else 0

/-- Lines 214-216: guaranteed addition, 0.25 percent of the trailing-12
average from policy year 6 onward. -/
def guarAdd (py : ℕ) (l : List ℚ) : ℚ :=
  if 6 ≤ py then 25 / 10000 * avgLast12 l else 0

/-- Lines 218-224: loyalty addition, 0.15 percent of the trailing-12 average
for policy years 6 through ppt, and identically zero when ppt = 5. -/
def loyAdd (ppt py : ℕ) (l : List ℚ) : ℚ :=
  if ppt = 5 then 0
  else if 6 ≤ py ∧ py ≤ ppt then 15 / 10000 * avgLast12 l else 0

/-- Lines 226-236: booster addition, 2.75 percent of the trailing-60 average
at every 5th policy year starting from year 10. -/
def boosterAdd (py : ℕ) (l : List ℚ) : ℚ :=
  if 10 ≤ py ∧ py % 5 = 0 then 275 / 10000 * avgLastN l 60 else 0

/-- Lines 203-251: at each year-end month the three additions are credited to
both funds and the last recorded entries are overwritten with the updated
values.  The source stores the 4 percent addition amounts in the tracking
lists (lines 243-245). -/
def yearEndAdditions (p : Params) (st : SimState) (m : ℕ) : SimState :=
  if m % 12 = 0 then
    { st with
      fv4 := st.fv4 + (guarAdd (m / 12) st.eom4 + loyAdd p.ppt (m / 12) st.eom4 +
        boosterAdd (m / 12) st.eom4)
      fv8 := st.fv8 + (guarAdd (m / 12) st.eom8 + loyAdd p.ppt (m / 12) st.eom8 +
        boosterAdd (m / 12) st.eom8)
      eom4 := st.eom4.dropLast ++ [st.fv4 + (guarAdd (m / 12) st.eom4 +
        loyAdd p.ppt (m / 12) st.eom4 + boosterAdd (m / 12) st.eom4)]
      eom8 := st.eom8.dropLast ++ [st.fv8 + (guarAdd (m / 12) st.eom8 +
        loyAdd p.ppt (m / 12) st.eom8 + boosterAdd (m / 12) st.eom8)]
      guars := st.guars.dropLast ++ [guarAdd (m / 12) st.eom4]
      loys := st.loys.dropLast ++ [loyAdd p.ppt (m / 12) st.eom4]
      boos := st.boos.dropLast ++ [boosterAdd (m / 12) st.eom4] }
  else st

/-- One month of the loop body of lines 100-251. -/
def step (p : Params) (st : SimState) (m : ℕ) : SimState :=
  yearEndAdditions p (monthCore p st m) m

/-- The simulation state after the first m months. -/
def runMonths (p : Params) : ℕ → SimState
  | 0 => initState
  | m + 1 => step p (runMonths p m) (m + 1)

/-- Per-month recorded mortality for the 4 percent scenario (line 167). -/
def mort4Rec (p : Params) (st : SimState) (m : ℕ) : ℚ :=
  mortMonth p (postGrowth4 p st.fv4 m)

/-- Per-month recorded mortality for the 8 percent scenario (line 172). -/
def mort8Rec (p : Params) (st : SimState) (m : ℕ) : ℚ :=
  mortMonth p (postGrowth8 p st.fv8 m)

/-- Per-month recorded GST for the 4 percent scenario (line 175). -/
def gst4Rec (p : Params) (st : SimState) (m : ℕ) : ℚ :=
  gstMonth p (postGrowth4 p st.fv4 m) m

/-- Per-month recorded GST for the 8 percent scenario (line 176). -/
def gst8Rec (p : Params) (st : SimState) (m : ℕ) : ℚ :=
  gstMonth p (postGrowth8 p st.fv8 m) m

/-- The 4 percent fund value stored for the month (after clamp and, at
year-end months, after additions). -/
def fv4Rec (p : Params) (st : SimState) (m : ℕ) : ℚ := (step p st m).fv4

/-- The 8 percent fund value stored for the month. -/
def fv8Rec (p : Params) (st : SimState) (m : ℕ) : ℚ := (step p st m).fv8

/-- The loyalty addition recorded for the month (line 244): nonzero only at
year-end months. -/
def loyRec (p : Params) (st : SimState) (m : ℕ) : ℚ :=
  if m % 12 = 0 then loyAdd p.ppt (m / 12) (monthCore p st m).eom4 else 0

/-- The booster addition recorded for the month (line 245). -/
def booRec (p : Params) (st : SimState) (m : ℕ) : ℚ :=
  if m % 12 = 0 then boosterAdd (m / 12) (monthCore p st m).eom4 else 0

/-- The guaranteed addition recorded for the month (line 243). -/
def guarRec (p : Params) (st : SimState) (m : ℕ) : ℚ :=
  if m % 12 = 0 then guarAdd (m / 12) (monthCore p st m).eom4 else 0

/-- Python negative indexing l[-1] used at lines 269-270. -/
def pyLast (l : List ℚ) : ℚ := l.getLastD 0

/-- One output row of the aggregation loop, lines 254-312.  The source rounds
the displayed values to 2 decimals when building the row dict; the fields here
are the unrounded quantities (mort_year_4, gst_year_4, surrender_4, ...)
computed by lines 259-285. -/
structure YearRow where
  annualPrem : ℚ
  pacYear : ℚ
  adminYear : ℚ
  otherYear : ℚ
  mortY4 : ℚ
  mortY8 : ℚ
  gstY4 : ℚ
  gstY8 : ℚ
  fvEnd4 : ℚ
  fvEnd8 : ℚ
  surr4 : ℚ
  surr8 : ℚ
  deathBen4 : ℚ
  deathBen8 : ℚ

/-- Lines 254-312: the aggregation of the monthly trace into the row for
policy year y.  The sums of monthly mortality computed at lines 265-266 are
immediately overwritten by the year-end recomputation of lines 269-279, so
only the recomputation is modelled. -/
def yearRow (p : Params) (y : ℕ) : YearRow :=
  let st := runMonths p (12 * p.policyTerm)
  let s := (y - 1) * 12
  let e := y * 12
  let seg : List ℚ → List ℚ := fun l => (l.drop s).take (e - s)
  let fvEnd4 := if e - 1 < st.eom4.length then st.eom4.getD (e - 1) 0 else pyLast st.eom4
  let fvEnd8 := if e - 1 < st.eom8.length then st.eom8.getD (e - 1) 0 else pyLast st.eom8
  let pacY := (seg st.pacs).sum
  let adminY := (seg st.admins).sum
  let otherY := pacY + adminY
  let mortY4 := 1 / 1000 * max (max fvEnd4 p.sumAssured - fvEnd4) 0
  let mortY8 := 1 / 1000 * max (max fvEnd8 p.sumAssured - fvEnd8) 0
  { annualPrem := (seg st.prems).sum
    pacYear := pacY
    adminYear := adminY
    otherYear := otherY
    mortY4 := mortY4
    mortY8 := mortY8
    gstY4 := 18 / 100 * (mortY4 + otherY)
    gstY8 := 18 / 100 * (mortY8 + otherY)
    fvEnd4 := fvEnd4
    fvEnd8 := fvEnd8
    surr4 := fvEnd4
    surr8 := fvEnd8
    deathBen4 := max fvEnd4 p.sumAssured
    deathBen8 := max fvEnd8 p.sumAssured }

/- ------------------------------------------------------------------ -/
/- Annual-resolution engine. -/

/-- Modelled from the spec: the source implements only the monthly-resolution
mode; the annual-resolution mode of section 4.2 (one step per policy year,
same pipeline) is missing from the source and is modelled here from the
words of the spec.  The per-year pipeline: premium intake while the year is
within the paying term, allocation charge (6 / 4 / 0 percent), admin charge
(1.65 percent of annual premium in years 1-5), net allocation, growth by the
assumed annual rate then reduction by the FMC drag, mortality at 0.1 percent
per annum of the sum at risk (the rate the source uses), tax at 18 percent of
mortality + allocation + admin, deduction with clamp at zero. -/
structure ARec where
  premium : ℚ
  pac : ℚ
  net : ℚ
  adminY : ℚ
  postGrowth : ℚ
  mort : ℚ
  tax : ℚ
  endBal : ℚ

/-- Modelled from the spec: one year of the annual-resolution charge pipeline
(steps 1-8 of section 4.2) applied to an opening balance. -/
def aRec (p : Params) (r : ℚ) (bal : ℚ) (y : ℕ) : ARec :=
  let premium := if 1 ≤ y ∧ y ≤ p.ppt then p.annualPremium else 0
  let pacPct : ℚ :=
    if 0 < premium then
      if y = 1 then 6 / 100 else if 2 ≤ y ∧ y ≤ 5 then 4 / 100 else 0
    else 0
  let pac := premium * pacPct
  let net := premium - pac
  let adminY := if 1 ≤ y ∧ y ≤ 5 then 165 / 10000 * p.annualPremium else 0
  let pg := (bal + net) * (1 + r) * (1 - p.fmc)
  let mort := 1 / 1000 * max (max pg p.sumAssured - pg) 0
  let tax := 18 / 100 * (mort + pac + adminY)
  ⟨premium, pac, net, adminY, pg, mort, tax,
    max (pg - (adminY + mort + tax)) 0⟩

/-- Modelled from the spec: the year-end additions of step 9 of section 4.2
in annual resolution (every period is a year-end period), with the rates the
spec names: guaranteed 0.25 percent of the trailing-12 average from year 6,
loyalty 0.15 percent of the same average from year 6 while ppt exceeds 5,
booster 2.75 percent of the trailing-60 average at every 5th year from
year 10. -/
def annualAdds (p : Params) (hist : List ℚ) (y : ℕ) : ℚ :=
  (if 6 ≤ y then 25 / 10000 * avgLastN hist 12 else 0) +
  (if 6 ≤ y ∧ 5 < p.ppt then 15 / 10000 * avgLastN hist 12 else 0) +
  (if 10 ≤ y ∧ y % 5 = 0 then 275 / 10000 * avgLastN hist 60 else 0)

/-- Modelled from the spec: annual state, the fund balance and the trailing
history of end-of-year balances. -/
structure AnnualState where
  balance : ℚ
  hist : List ℚ

/-- Modelled from the spec: one full annual-resolution period, charge pipeline
followed by year-end additions, the updated balance becoming the trailing
average input for subsequent years. -/
def annualStep (p : Params) (r : ℚ) (st : AnnualState) (y : ℕ) : AnnualState :=
  let a := aRec p r st.balance y
  let h1 := st.hist ++ [a.endBal]
  let b := a.endBal + annualAdds p h1 y
  ⟨b, h1.dropLast ++ [b]⟩

/-- Modelled from the spec: the annual-resolution run after y years. -/
def runAnnual (p : Params) (r : ℚ) : ℕ → AnnualState
  | 0 => ⟨0, []⟩
  | y + 1 => annualStep p r (runAnnual p r y) (y + 1)

/- ------------------------------------------------------------------ -/
/- Concrete parameter values used by witnesses and counterexamples. -/

/-- One-year policy with the Equity Large Cap FMC (0.0135) and rational
approximations of the monthly rates pow(1.04, 1/12) - 1 and
pow(1.08, 1/12) - 1 computed by lines 69-70. -/
def p1 : Params := ⟨1200, 1000000, 1, 1, 327 / 100000, 643 / 100000, 27 / 2000⟩

/-- The concrete scenario of the claim about the annual mode: premium 100000,
sum assured 1000000, term 20, ppt 20, FMC 1.35 percent.  The monthly-rate
fields are unused by the annual engine. -/
def p6 : Params := ⟨100000, 1000000, 20, 20, 0, 0, 135 / 10000⟩

/-- Small one-year policy with simple rates, used to instantiate universally
quantified theorems. -/
def pw : Params := ⟨1200, 2400, 1, 1, 1 / 100, 2 / 100, 12 / 100⟩

/-- Small policy with premium paying term exactly 5. -/
def pw5 : Params := ⟨1200, 2400, 1, 5, 0, 0, 0⟩

/-- Small policy with premium paying term 0, so every policy year exceeds the
paying term. -/
def pw0 : Params := ⟨1200, 2400, 1, 0, 0, 0, 0⟩

/-- Both fund balances and all stored end-of-month balances are nonnegative. -/
def NonnegState (st : SimState) : Prop :=
  0 ≤ st.fv4 ∧ 0 ≤ st.fv8 ∧ (∀ x ∈ st.eom4, 0 ≤ x) ∧ ∀ x ∈ st.eom8, 0 ≤ x

/-- The 8 percent scenario dominates the 4 percent scenario, pointwise on the
stored histories. -/
def OrderedState (st : SimState) : Prop :=
  st.fv4 ≤ st.fv8 ∧ List.Forall₂ (· ≤ ·) st.eom4 st.eom8

/- ------------------------------------------------------------------ -/
/- Structural lemmas about one step of the monthly loop. -/

theorem dropLast_app (l : List ℚ) (a : ℚ) : (l ++ [a]).dropLast = l := by
  simp

theorem step_prems (p : Params) (st : SimState) (m : ℕ) :
    (step p st m).prems = st.prems ++ [premiumFor p m] := by
  by_cases h : m % 12 = 0 <;> simp [step, yearEndAdditions, monthCore, h]

theorem step_pacs (p : Params) (st : SimState) (m : ℕ) :
    (step p st m).pacs = st.pacs ++ [pacFor p m] := by
  by_cases h : m % 12 = 0 <;> simp [step, yearEndAdditions, monthCore, h]

theorem step_admins (p : Params) (st : SimState) (m : ℕ) :
    (step p st m).admins = st.admins ++ [adminMonthlyFor p m] := by
  by_cases h : m % 12 = 0 <;> simp [step, yearEndAdditions, monthCore, h]

theorem step_morts4 (p : Params) (st : SimState) (m : ℕ) :
    (step p st m).morts4 = st.morts4 ++ [mort4Rec p st m] := by
  by_cases h : m % 12 = 0 <;>
    simp [step, yearEndAdditions, monthCore, mort4Rec, h]

theorem step_morts8 (p : Params) (st : SimState) (m : ℕ) :
    (step p st m).morts8 = st.morts8 ++ [mort8Rec p st m] := by
  by_cases h : m % 12 = 0 <;>
    simp [step, yearEndAdditions, monthCore, mort8Rec, h]

theorem step_gsts4 (p : Params) (st : SimState) (m : ℕ) :
    (step p st m).gsts4 = st.gsts4 ++ [gst4Rec p st m] := by
  by_cases h : m % 12 = 0 <;>
    simp [step, yearEndAdditions, monthCore, gst4Rec, h]

theorem step_gsts8 (p : Params) (st : SimState) (m : ℕ) :
    (step p st m).gsts8 = st.gsts8 ++ [gst8Rec p st m] := by
  by_cases h : m % 12 = 0 <;>
    simp [step, yearEndAdditions, monthCore, gst8Rec, h]

theorem step_eom4 (p : Params) (st : SimState) (m : ℕ) :
    (step p st m).eom4 = st.eom4 ++ [fv4Rec p st m] := by
  by_cases h : m % 12 = 0 <;>
    simp [step, yearEndAdditions, monthCore, fv4Rec, h, dropLast_app]

theorem step_eom8 (p : Params) (st : SimState) (m : ℕ) :
    (step p st m).eom8 = st.eom8 ++ [fv8Rec p st m] := by
  by_cases h : m % 12 = 0 <;>
    simp [step, yearEndAdditions, monthCore, fv8Rec, h, dropLast_app]

theorem step_loys (p : Params) (st : SimState) (m : ℕ) :
    (step p st m).loys = st.loys ++ [loyRec p st m] := by
  by_cases h : m % 12 = 0 <;>
    simp [step, yearEndAdditions, monthCore, loyRec, h, dropLast_app]

theorem step_boos (p : Params) (st : SimState) (m : ℕ) :
    (step p st m).boos = st.boos ++ [booRec p st m] := by
  by_cases h : m % 12 = 0 <;>
    simp [step, yearEndAdditions, monthCore, booRec, h, dropLast_app]

theorem step_guars (p : Params) (st : SimState) (m : ℕ) :
    (step p st m).guars = st.guars ++ [guarRec p st m] := by
  by_cases h : m % 12 = 0 <;>
    simp [step, yearEndAdditions, monthCore, guarRec, h, dropLast_app]

/- ------------------------------------------------------------------ -/
/- The recorded lists of the run, in closed form. -/

theorem run_list_eq (p : Params) (L : SimState → List ℚ) (v : Params → SimState → ℕ → ℚ)
    (h0 : L initState = [])
    (hs : ∀ st m, L (step p st m) = L st ++ [v p st m]) :
    ∀ m, L (runMonths p m) = (List.range m).map (fun k => v p (runMonths p k) (k + 1)) := by
  intro m
  induction m with
  | zero => simp [runMonths, h0]
  | succ n ih =>
      rw [runMonths, hs, ih, List.range_succ, List.map_append]
      rfl

theorem run_list_length (p : Params) (L : SimState → List ℚ)
    (v : Params → SimState → ℕ → ℚ) (h0 : L initState = [])
    (hs : ∀ st m, L (step p st m) = L st ++ [v p st m]) (m : ℕ) :
    (L (runMonths p m)).length = m := by
  rw [run_list_eq p L v h0 hs m]
  simp

theorem run_list_getD (p : Params) (L : SimState → List ℚ)
    (v : Params → SimState → ℕ → ℚ) (h0 : L initState = [])
    (hs : ∀ st m, L (step p st m) = L st ++ [v p st m]) (m k : ℕ) (hk : k < m) :
    (L (runMonths p m)).getD k 0 = v p (runMonths p k) (k + 1) := by
  rw [run_list_eq p L v h0 hs m]
  rw [List.getD_eq_getElem?_getD, List.getElem?_map, List.getElem?_range hk]
  rfl

theorem prems_getD (p : Params) (m k : ℕ) (hk : k < m) :
    (runMonths p m).prems.getD k 0 = premiumFor p (k + 1) :=
  run_list_getD p (fun st => st.prems) (fun q _ n => premiumFor q n) rfl
    (step_prems p) m k hk

theorem pacs_getD (p : Params) (m k : ℕ) (hk : k < m) :
    (runMonths p m).pacs.getD k 0 = pacFor p (k + 1) :=
  run_list_getD p (fun st => st.pacs) (fun q _ n => pacFor q n) rfl
    (step_pacs p) m k hk

theorem admins_getD (p : Params) (m k : ℕ) (hk : k < m) :
    (runMonths p m).admins.getD k 0 = adminMonthlyFor p (k + 1) :=
  run_list_getD p (fun st => st.admins) (fun q _ n => adminMonthlyFor q n) rfl
    (step_admins p) m k hk

theorem morts4_getD (p : Params) (m k : ℕ) (hk : k < m) :
    (runMonths p m).morts4.getD k 0 = mort4Rec p (runMonths p k) (k + 1) :=
  run_list_getD p (fun st => st.morts4) mort4Rec rfl (step_morts4 p) m k hk

theorem morts8_getD (p : Params) (m k : ℕ) (hk : k < m) :
    (runMonths p m).morts8.getD k 0 = mort8Rec p (runMonths p k) (k + 1) :=
  run_list_getD p (fun st => st.morts8) mort8Rec rfl (step_morts8 p) m k hk

theorem gsts4_getD (p : Params) (m k : ℕ) (hk : k < m) :
    (runMonths p m).gsts4.getD k 0 = gst4Rec p (runMonths p k) (k + 1) :=
  run_list_getD p (fun st => st.gsts4) gst4Rec rfl (step_gsts4 p) m k hk

theorem gsts8_getD (p : Params) (m k : ℕ) (hk : k < m) :
    (runMonths p m).gsts8.getD k 0 = gst8Rec p (runMonths p k) (k + 1) :=
  run_list_getD p (fun st => st.gsts8) gst8Rec rfl (step_gsts8 p) m k hk

theorem loys_getD (p : Params) (m k : ℕ) (hk : k < m) :
    (runMonths p m).loys.getD k 0 = loyRec p (runMonths p k) (k + 1) :=
  run_list_getD p (fun st => st.loys) loyRec rfl (step_loys p) m k hk

theorem boos_getD (p : Params) (m k : ℕ) (hk : k < m) :
    (runMonths p m).boos.getD k 0 = booRec p (runMonths p k) (k + 1) :=
  run_list_getD p (fun st => st.boos) booRec rfl (step_boos p) m k hk

theorem eom4_getD (p : Params) (m k : ℕ) (hk : k < m) :
    (runMonths p m).eom4.getD k 0 = (runMonths p (k + 1)).fv4 := by
  have h := run_list_getD p (fun st => st.eom4) fv4Rec rfl (step_eom4 p) m k hk
  rw [h]
  rfl

theorem eom8_getD (p : Params) (m k : ℕ) (hk : k < m) :
    (runMonths p m).eom8.getD k 0 = (runMonths p (k + 1)).fv8 := by
  have h := run_list_getD p (fun st => st.eom8) fv8Rec rfl (step_eom8 p) m k hk
  rw [h]
  rfl

theorem eom4_length (p : Params) (m : ℕ) : (runMonths p m).eom4.length = m :=
  run_list_length p (fun st => st.eom4) fv4Rec rfl (step_eom4 p) m

theorem eom8_length (p : Params) (m : ℕ) : (runMonths p m).eom8.length = m :=
  run_list_length p (fun st => st.eom8) fv8Rec rfl (step_eom8 p) m

/- ------------------------------------------------------------------ -/
/- Non-negativity of the fund balances (the clamp at lines 183-184). -/

theorem avgLast12_nonneg {l : List ℚ} (h : ∀ x ∈ l, 0 ≤ x) : 0 ≤ avgLast12 l := by
  unfold avgLast12
  split
  · exact div_nonneg (List.sum_nonneg fun x hx => h x (List.drop_subset _ _ hx)) (by norm_num)
  · exact div_nonneg (List.sum_nonneg h) (Nat.cast_nonneg _)

theorem avgLastN_nonneg {l : List ℚ} (n : ℕ) (h : ∀ x ∈ l, 0 ≤ x) :
    0 ≤ avgLastN l n := by
  unfold avgLastN
  split
  · exact div_nonneg (List.sum_nonneg fun x hx => h x (List.drop_subset _ _ hx))
      (Nat.cast_nonneg _)
  · exact le_refl 0

theorem guarAdd_nonneg {l : List ℚ} (py : ℕ) (h : ∀ x ∈ l, 0 ≤ x) :
    0 ≤ guarAdd py l := by
  unfold guarAdd
  split
  · exact mul_nonneg (by norm_num) (avgLast12_nonneg h)
  · exact le_refl 0

theorem loyAdd_nonneg {l : List ℚ} (ppt py : ℕ) (h : ∀ x ∈ l, 0 ≤ x) :
    0 ≤ loyAdd ppt py l := by
  unfold loyAdd
  split
  · exact le_refl 0
  · split
    · exact mul_nonneg (by norm_num) (avgLast12_nonneg h)
    · exact le_refl 0

theorem boosterAdd_nonneg {l : List ℚ} (py : ℕ) (h : ∀ x ∈ l, 0 ≤ x) :
    0 ≤ boosterAdd py l := by
  unfold boosterAdd
  split
  · exact mul_nonneg (by norm_num) (avgLastN_nonneg 60 h)
  · exact le_refl 0

theorem clamped4_nonneg (p : Params) (fv : ℚ) (m : ℕ) : 0 ≤ clamped4 p fv m :=
  le_max_right _ _

theorem clamped8_nonneg (p : Params) (fv : ℚ) (m : ℕ) : 0 ≤ clamped8 p fv m :=
  le_max_right _ _

theorem monthCore_nonneg (p : Params) (st : SimState) (m : ℕ) (h : NonnegState st) :
    NonnegState (monthCore p st m) := by
  obtain ⟨h4, h8, he4, he8⟩ := h
  unfold NonnegState monthCore
  refine ⟨clamped4_nonneg p st.fv4 m, clamped8_nonneg p st.fv8 m, ?_, ?_⟩
  · intro x hx
    rcases List.mem_append.mp hx with hx | hx
    · exact he4 x hx
    · rw [List.mem_singleton.mp hx]
      exact clamped4_nonneg p st.fv4 m
  · intro x hx
    rcases List.mem_append.mp hx with hx | hx
    · exact he8 x hx
    · rw [List.mem_singleton.mp hx]
      exact clamped8_nonneg p st.fv8 m

theorem yearEnd_nonneg (p : Params) (st : SimState) (m : ℕ) (h : NonnegState st) :
    NonnegState (yearEndAdditions p st m) := by
  obtain ⟨h4, h8, he4, he8⟩ := h
  unfold yearEndAdditions
  split
  · have hadd4 : 0 ≤ guarAdd (m / 12) st.eom4 + loyAdd p.ppt (m / 12) st.eom4 +
        boosterAdd (m / 12) st.eom4 :=
      add_nonneg (add_nonneg (guarAdd_nonneg _ he4) (loyAdd_nonneg _ _ he4))
        (boosterAdd_nonneg _ he4)
    have hadd8 : 0 ≤ guarAdd (m / 12) st.eom8 + loyAdd p.ppt (m / 12) st.eom8 +
        boosterAdd (m / 12) st.eom8 :=
      add_nonneg (add_nonneg (guarAdd_nonneg _ he8) (loyAdd_nonneg _ _ he8))
        (boosterAdd_nonneg _ he8)
    refine ⟨add_nonneg h4 hadd4, add_nonneg h8 hadd8, ?_, ?_⟩
    · intro x hx
      rcases List.mem_append.mp hx with hx | hx
      · exact he4 x (List.dropLast_subset _ hx)
      · rw [List.mem_singleton.mp hx]
        exact add_nonneg h4 hadd4
    · intro x hx
      rcases List.mem_append.mp hx with hx | hx
      · exact he8 x (List.dropLast_subset _ hx)
      · rw [List.mem_singleton.mp hx]
        exact add_nonneg h8 hadd8
  · exact ⟨h4, h8, he4, he8⟩

theorem nonneg_step (p : Params) (st : SimState) (m : ℕ) (h : NonnegState st) :
    NonnegState (step p st m) :=
  yearEnd_nonneg p _ m (monthCore_nonneg p st m h)

theorem nonneg_run (p : Params) : ∀ m, NonnegState (runMonths p m) := by
  intro m
  induction m with
  | zero =>
      refine ⟨le_refl 0, le_refl 0, ?_, ?_⟩ <;> intro x hx <;> cases hx
  | succ n ih => exact nonneg_step p (runMonths p n) (n + 1) ih

/- ------------------------------------------------------------------ -/
/- Scenario domination: the 8 percent run pointwise dominates the 4
   percent run. -/

theorem premiumFor_nonneg (p : Params) (m : ℕ) (hP : 0 ≤ p.annualPremium) :
    0 ≤ premiumFor p m := by
  unfold premiumFor
  split
  · exact hP
  · exact le_refl 0

theorem pacPctFor_nonneg (p : Params) (m : ℕ) : 0 ≤ pacPctFor p m := by
  unfold pacPctFor
  split
  · split
    · norm_num
    · split <;> norm_num
  · exact le_refl 0

theorem pacPctFor_le_one (p : Params) (m : ℕ) : pacPctFor p m ≤ 1 := by
  unfold pacPctFor
  split
  · split
    · norm_num
    · split <;> norm_num
  · norm_num

theorem alloc_nonneg (p : Params) (m : ℕ) (hP : 0 ≤ p.annualPremium) :
    0 ≤ premiumFor p m - pacFor p m := by
  have h1 := premiumFor_nonneg p m hP
  have h2 : pacFor p m ≤ premiumFor p m := by
    unfold pacFor
    calc premiumFor p m * pacPctFor p m
        ≤ premiumFor p m * 1 := mul_le_mul_of_nonneg_left (pacPctFor_le_one p m) h1
      _ = premiumFor p m := mul_one _
  linarith

theorem mortMonth_eq (p : Params) (x : ℚ) :
    mortMonth p x = 1 / 1000 * max (p.sumAssured - x) 0 / 12 := by
  unfold mortMonth
  rcases le_total x p.sumAssured with h | h
  · rw [max_eq_right h]
  · rw [max_eq_left h]
    have h1 : max (x - x) (0 : ℚ) = 0 := by rw [sub_self]; exact max_self 0
    have h2 : max (p.sumAssured - x) (0 : ℚ) = 0 := max_eq_right (by linarith)
    rw [h1, h2]

theorem mortMonth_anti (p : Params) {x y : ℚ} (hxy : x ≤ y) :
    mortMonth p y ≤ mortMonth p x := by
  rw [mortMonth_eq, mortMonth_eq]
  have h : max (p.sumAssured - y) (0 : ℚ) ≤ max (p.sumAssured - x) 0 :=
    max_le_max (by linarith) (le_refl 0)
  linarith

theorem clamped_mono (p : Params) (m : ℕ) (hP : 0 ≤ p.annualPremium)
    (hr : p.monthlyReturn4 ≤ p.monthlyReturn8)
    (hg : 0 ≤ 1 + (p.monthlyReturn4 - monthlyFmc p))
    {x y : ℚ} (hxy : x ≤ y) (hy : 0 ≤ y) :
    clamped4 p x m ≤ clamped8 p y m := by
  have ha := alloc_nonneg p m hP
  have hpg : postGrowth4 p x m ≤ postGrowth8 p y m := by
    unfold postGrowth4 postGrowth8
    have h1 : x + (premiumFor p m - pacFor p m) ≤ y + (premiumFor p m - pacFor p m) := by
      linarith
    have h0 : 0 ≤ y + (premiumFor p m - pacFor p m) := by linarith
    have hgg : 1 + (p.monthlyReturn4 - monthlyFmc p) ≤
        1 + (p.monthlyReturn8 - monthlyFmc p) := by linarith
    calc (x + (premiumFor p m - pacFor p m)) * (1 + (p.monthlyReturn4 - monthlyFmc p))
        ≤ (y + (premiumFor p m - pacFor p m)) * (1 + (p.monthlyReturn4 - monthlyFmc p)) :=
          mul_le_mul_of_nonneg_right h1 hg
      _ ≤ (y + (premiumFor p m - pacFor p m)) * (1 + (p.monthlyReturn8 - monthlyFmc p)) :=
          mul_le_mul_of_nonneg_left hgg h0
  have hm : mortMonth p (postGrowth8 p y m) ≤ mortMonth p (postGrowth4 p x m) :=
    mortMonth_anti p hpg
  unfold clamped4 clamped8 gstMonth
  apply max_le_max _ (le_refl 0)
  linarith

theorem forall2_sum_le {a b : List ℚ} (h : List.Forall₂ (· ≤ ·) a b) :
    a.sum ≤ b.sum := by
  induction h with
  | nil => exact le_refl 0
  | cons hxy ht ih => simpa using add_le_add hxy ih

theorem forall2_drop {a b : List ℚ} (n : ℕ) (h : List.Forall₂ (· ≤ ·) a b) :
    List.Forall₂ (· ≤ ·) (a.drop n) (b.drop n) := by
  induction n generalizing a b with
  | zero => simpa using h
  | succ k ih =>
      cases h with
      | nil => exact List.Forall₂.nil
      | cons hxy ht => simpa using ih ht

theorem forall2_take {a b : List ℚ} (n : ℕ) (h : List.Forall₂ (· ≤ ·) a b) :
    List.Forall₂ (· ≤ ·) (a.take n) (b.take n) := by
  induction n generalizing a b with
  | zero => exact List.Forall₂.nil
  | succ k ih =>
      cases h with
      | nil => exact List.Forall₂.nil
      | cons hxy ht => exact List.Forall₂.cons hxy (ih ht)

theorem forall2_dropLast {a b : List ℚ} (h : List.Forall₂ (· ≤ ·) a b) :
    List.Forall₂ (· ≤ ·) a.dropLast b.dropLast := by
  rw [List.dropLast_eq_take, List.dropLast_eq_take, h.length_eq]
  exact forall2_take _ h

theorem forall2_append_single {a b : List ℚ} {x y : ℚ}
    (h : List.Forall₂ (· ≤ ·) a b) (hxy : x ≤ y) :
    List.Forall₂ (· ≤ ·) (a ++ [x]) (b ++ [y]) := by
  induction h with
  | nil => exact List.Forall₂.cons hxy List.Forall₂.nil
  | cons hab ht ih => exact List.Forall₂.cons hab ih

theorem avgLast12_le {a b : List ℚ} (h : List.Forall₂ (· ≤ ·) a b) :
    avgLast12 a ≤ avgLast12 b := by
  have hlen := h.length_eq
  unfold avgLast12
  rw [← hlen]
  split_ifs with h12
  · have hs := forall2_sum_le (forall2_drop (a.length - 12) h)
    linarith
  · rcases Nat.eq_zero_or_pos a.length with h0 | hpos
    · have ha : a = [] := List.length_eq_zero.mp h0
      have hb : b = [] := List.length_eq_zero.mp (by rw [← hlen]; exact h0)
      rw [ha, hb]
    · have hs := forall2_sum_le h
      have hp : (0 : ℚ) < (a.length : ℚ) := by exact_mod_cast hpos
      exact (div_le_div_iff_of_pos_right hp).mpr hs

theorem avgLastN_le {a b : List ℚ} (n : ℕ) (h : List.Forall₂ (· ≤ ·) a b) :
    avgLastN a n ≤ avgLastN b n := by
  have hlen := h.length_eq
  unfold avgLastN
  rw [← hlen]
  split_ifs with hpos
  · have hs := forall2_sum_le (forall2_drop (a.length - min a.length n) h)
    have hp : (0 : ℚ) < ((min a.length n : ℕ) : ℚ) := by exact_mod_cast hpos
    exact (div_le_div_iff_of_pos_right hp).mpr hs
  · exact le_refl 0

theorem guarAdd_le {a b : List ℚ} (py : ℕ) (h : List.Forall₂ (· ≤ ·) a b) :
    guarAdd py a ≤ guarAdd py b := by
  unfold guarAdd
  split
  · exact mul_le_mul_of_nonneg_left (avgLast12_le h) (by norm_num)
  · exact le_refl 0

theorem loyAdd_le {a b : List ℚ} (ppt py : ℕ) (h : List.Forall₂ (· ≤ ·) a b) :
    loyAdd ppt py a ≤ loyAdd ppt py b := by
  unfold loyAdd
  split
  · exact le_refl 0
  · split
    · exact mul_le_mul_of_nonneg_left (avgLast12_le h) (by norm_num)
    · exact le_refl 0

theorem boosterAdd_le {a b : List ℚ} (py : ℕ) (h : List.Forall₂ (· ≤ ·) a b) :
    boosterAdd py a ≤ boosterAdd py b := by
  unfold boosterAdd
  split
  · exact mul_le_mul_of_nonneg_left (avgLastN_le 60 h) (by norm_num)
  · exact le_refl 0

theorem monthCore_ordered (p : Params) (st : SimState) (m : ℕ)
    (hP : 0 ≤ p.annualPremium) (hr : p.monthlyReturn4 ≤ p.monthlyReturn8)
    (hg : 0 ≤ 1 + (p.monthlyReturn4 - monthlyFmc p))
    (hnn : NonnegState st) (h : OrderedState st) :
    OrderedState (monthCore p st m) := by
  have hfv : clamped4 p st.fv4 m ≤ clamped8 p st.fv8 m :=
    clamped_mono p m hP hr hg h.1 hnn.2.1
  exact ⟨hfv, forall2_append_single h.2 hfv⟩

theorem yearEnd_ordered (p : Params) (st : SimState) (m : ℕ) (h : OrderedState st) :
    OrderedState (yearEndAdditions p st m) := by
  obtain ⟨hfv, he⟩ := h
  unfold yearEndAdditions
  split
  · have hadds : guarAdd (m / 12) st.eom4 + loyAdd p.ppt (m / 12) st.eom4 +
        boosterAdd (m / 12) st.eom4 ≤
        guarAdd (m / 12) st.eom8 + loyAdd p.ppt (m / 12) st.eom8 +
        boosterAdd (m / 12) st.eom8 := by
      have g := guarAdd_le (m / 12) he
      have lo := loyAdd_le p.ppt (m / 12) he
      have bo := boosterAdd_le (m / 12) he
      linarith
    exact ⟨add_le_add hfv hadds,
      forall2_append_single (forall2_dropLast he) (add_le_add hfv hadds)⟩
  · exact ⟨hfv, he⟩

theorem ordered_step (p : Params) (st : SimState) (m : ℕ)
    (hP : 0 ≤ p.annualPremium) (hr : p.monthlyReturn4 ≤ p.monthlyReturn8)
    (hg : 0 ≤ 1 + (p.monthlyReturn4 - monthlyFmc p))
    (hnn : NonnegState st) (h : OrderedState st) :
    OrderedState (step p st m) :=
  yearEnd_ordered p _ m (monthCore_ordered p st m hP hr hg hnn h)

theorem ordered_run (p : Params) (hP : 0 ≤ p.annualPremium)
    (hr : p.monthlyReturn4 ≤ p.monthlyReturn8)
    (hg : 0 ≤ 1 + (p.monthlyReturn4 - monthlyFmc p)) :
    ∀ m, OrderedState (runMonths p m) := by
  intro m
  induction m with
  | zero => exact ⟨le_refl 0, List.Forall₂.nil⟩
  | succ n ih => exact ordered_step p (runMonths p n) (n + 1) hP hr hg (nonneg_run p n) ih

/- ------------------------------------------------------------------ -/
/- The row of the aggregation loop, resolved. -/

theorem yearRow_fvEnd4 (p : Params) (y : ℕ) (h1 : 1 ≤ y) (h2 : y ≤ p.policyTerm) :
    (yearRow p y).fvEnd4 = (runMonths p (12 * y)).fv4 := by
  have hlen := eom4_length p (12 * p.policyTerm)
  have hguard : y * 12 - 1 < (runMonths p (12 * p.policyTerm)).eom4.length := by
    rw [hlen]; omega
  have hk : y * 12 - 1 < 12 * p.policyTerm := by omega
  have hgd := eom4_getD p (12 * p.policyTerm) (y * 12 - 1) hk
  have hy : y * 12 - 1 + 1 = 12 * y := by omega
  show (if y * 12 - 1 < (runMonths p (12 * p.policyTerm)).eom4.length then
      (runMonths p (12 * p.policyTerm)).eom4.getD (y * 12 - 1) 0
    else pyLast (runMonths p (12 * p.policyTerm)).eom4) = (runMonths p (12 * y)).fv4
  rw [if_pos hguard, hgd, hy]

theorem yearRow_fvEnd8 (p : Params) (y : ℕ) (h1 : 1 ≤ y) (h2 : y ≤ p.policyTerm) :
    (yearRow p y).fvEnd8 = (runMonths p (12 * y)).fv8 := by
  have hlen := eom8_length p (12 * p.policyTerm)
  have hguard : y * 12 - 1 < (runMonths p (12 * p.policyTerm)).eom8.length := by
    rw [hlen]; omega
  have hk : y * 12 - 1 < 12 * p.policyTerm := by omega
  have hgd := eom8_getD p (12 * p.policyTerm) (y * 12 - 1) hk
  have hy : y * 12 - 1 + 1 = 12 * y := by omega
  show (if y * 12 - 1 < (runMonths p (12 * p.policyTerm)).eom8.length then
      (runMonths p (12 * p.policyTerm)).eom8.getD (y * 12 - 1) 0
    else pyLast (runMonths p (12 * p.policyTerm)).eom8) = (runMonths p (12 * y)).fv8
  rw [if_pos hguard, hgd, hy]

theorem yearRow_annualPrem (p : Params) (y : ℕ) (h1 : 1 ≤ y) :
    (yearRow p y).annualPrem =
      (((runMonths p (12 * p.policyTerm)).prems.drop ((y - 1) * 12)).take 12).sum := by
  have h12 : y * 12 - (y - 1) * 12 = 12 := by omega
  show (((runMonths p (12 * p.policyTerm)).prems.drop ((y - 1) * 12)).take
      (y * 12 - (y - 1) * 12)).sum = _
  rw [h12]

theorem yearRow_pacYear (p : Params) (y : ℕ) (h1 : 1 ≤ y) :
    (yearRow p y).pacYear =
      (((runMonths p (12 * p.policyTerm)).pacs.drop ((y - 1) * 12)).take 12).sum := by
  have h12 : y * 12 - (y - 1) * 12 = 12 := by omega
  show (((runMonths p (12 * p.policyTerm)).pacs.drop ((y - 1) * 12)).take
      (y * 12 - (y - 1) * 12)).sum = _
  rw [h12]

theorem yearRow_adminYear (p : Params) (y : ℕ) (h1 : 1 ≤ y) :
    (yearRow p y).adminYear =
      (((runMonths p (12 * p.policyTerm)).admins.drop ((y - 1) * 12)).take 12).sum := by
  have h12 : y * 12 - (y - 1) * 12 = 12 := by omega
  show (((runMonths p (12 * p.policyTerm)).admins.drop ((y - 1) * 12)).take
      (y * 12 - (y - 1) * 12)).sum = _
  rw [h12]

/- ------------------------------------------------------------------ -/
/- Claims. -/

/-- Claim C1, counterexample: in the row for policy year 1 at concrete inputs,
the mortality field and the GST field are NOT the sums of the recorded
monthly mortality and GST values: the aggregation recomputes both from the
year-end fund value instead of summing the monthly periods. -/
theorem claim_C1_counterexample :
    (yearRow p1 1).mortY4 ≠ ((runMonths p1 12).morts4).sum ∧
    (yearRow p1 1).gstY4 ≠ ((runMonths p1 12).gsts4).sum := by
  constructor <;> with_unfolding_all decide

/-- Claim C1, amended: in every policy year row, the premium, allocation
charge and admin charge fields are the sums over the 12 monthly periods of
the year, the fund-value, surrender-value and death-benefit fields are the
end-of-year snapshot, but the mortality field is recomputed as 0.1 percent of
the year-end sum at risk and the GST field as 18 percent of that recomputed
mortality plus the summed allocation and admin charges, not as sums of the
monthly mortality and GST records. -/
theorem claim_C1_amended (p : Params) (y : ℕ) (h1 : 1 ≤ y) (h2 : y ≤ p.policyTerm) :
    (yearRow p y).annualPrem =
      (((runMonths p (12 * p.policyTerm)).prems.drop ((y - 1) * 12)).take 12).sum ∧
    (yearRow p y).pacYear =
      (((runMonths p (12 * p.policyTerm)).pacs.drop ((y - 1) * 12)).take 12).sum ∧
    (yearRow p y).adminYear =
      (((runMonths p (12 * p.policyTerm)).admins.drop ((y - 1) * 12)).take 12).sum ∧
    (yearRow p y).fvEnd4 = (runMonths p (12 * y)).fv4 ∧
    (yearRow p y).fvEnd8 = (runMonths p (12 * y)).fv8 ∧
    (yearRow p y).mortY4 =
      1 / 1000 * max (max (yearRow p y).fvEnd4 p.sumAssured - (yearRow p y).fvEnd4) 0 ∧
    (yearRow p y).mortY8 =
      1 / 1000 * max (max (yearRow p y).fvEnd8 p.sumAssured - (yearRow p y).fvEnd8) 0 ∧
    (yearRow p y).gstY4 =
      18 / 100 * ((yearRow p y).mortY4 + ((yearRow p y).pacYear + (yearRow p y).adminYear)) ∧
    (yearRow p y).gstY8 =
      18 / 100 * ((yearRow p y).mortY8 + ((yearRow p y).pacYear + (yearRow p y).adminYear)) ∧
    (yearRow p y).surr4 = (yearRow p y).fvEnd4 ∧
    (yearRow p y).surr8 = (yearRow p y).fvEnd8 ∧
    (yearRow p y).deathBen4 = max (yearRow p y).fvEnd4 p.sumAssured ∧
    (yearRow p y).deathBen8 = max (yearRow p y).fvEnd8 p.sumAssured :=
  ⟨yearRow_annualPrem p y h1, yearRow_pacYear p y h1, yearRow_adminYear p y h1,
    yearRow_fvEnd4 p y h1 h2, yearRow_fvEnd8 p y h1 h2,
    rfl, rfl, rfl, rfl, rfl, rfl, rfl, rfl⟩

/-- Claim C1, witness: the amended statement instantiated at the concrete
one-year policy. -/
theorem claim_C1_witness :
    (1 : ℕ) ≤ 1 ∧ 1 ≤ p1.policyTerm ∧
    (yearRow p1 1).fvEnd4 = (runMonths p1 (12 * 1)).fv4 ∧
    (yearRow p1 1).gstY4 =
      18 / 100 * ((yearRow p1 1).mortY4 + ((yearRow p1 1).pacYear + (yearRow p1 1).adminYear)) :=
  ⟨le_refl 1, by decide, (claim_C1_amended p1 1 (by decide) (by decide)).2.2.2.1,
    (claim_C1_amended p1 1 (by decide) (by decide)).2.2.2.2.2.2.2.1⟩

/-- Claim C2: in every simulated month and both scenarios, the fund balance
stored at the end of the period is nonnegative: over-deductions are clamped
to zero and not carried forward. -/
theorem claim_C2 (p : Params) (m : ℕ) :
    0 ≤ (runMonths p m).fv4 ∧ 0 ≤ (runMonths p m).fv8 ∧
    ∀ k, k < m →
      0 ≤ (runMonths p m).eom4.getD k 0 ∧ 0 ≤ (runMonths p m).eom8.getD k 0 := by
  obtain ⟨h4, h8, he4, he8⟩ := nonneg_run p m
  refine ⟨h4, h8, ?_⟩
  intro k hk
  rw [eom4_getD p m k hk, eom8_getD p m k hk]
  exact ⟨(nonneg_run p (k + 1)).1, (nonneg_run p (k + 1)).2.1⟩

/-- Claim C2, witness: the non-negativity statement instantiated at the
concrete one-year policy after 12 months. -/
theorem claim_C2_witness :
    0 ≤ (runMonths pw 12).fv4 ∧ (0 : ℕ) < 12 ∧ 0 ≤ (runMonths pw 12).eom4.getD 0 0 :=
  ⟨(claim_C2 pw 12).1, by decide, ((claim_C2 pw 12).2.2 0 (by decide)).1⟩

/-- Claim C3: in every policy year row and both scenarios the death benefit is
the maximum of the year-end fund value and the sum assured, the surrender
value is the year-end fund value, and hence the death benefit is at least the
sum assured. -/
theorem claim_C3 (p : Params) (y : ℕ) (h1 : 1 ≤ y) (h2 : y ≤ p.policyTerm) :
    (yearRow p y).deathBen4 = max (yearRow p y).fvEnd4 p.sumAssured ∧
    (yearRow p y).deathBen8 = max (yearRow p y).fvEnd8 p.sumAssured ∧
    (yearRow p y).surr4 = (yearRow p y).fvEnd4 ∧
    (yearRow p y).surr8 = (yearRow p y).fvEnd8 ∧
    (yearRow p y).fvEnd4 = (runMonths p (12 * y)).fv4 ∧
    (yearRow p y).fvEnd8 = (runMonths p (12 * y)).fv8 ∧
    p.sumAssured ≤ (yearRow p y).deathBen4 ∧
    p.sumAssured ≤ (yearRow p y).deathBen8 :=
  ⟨rfl, rfl, rfl, rfl, yearRow_fvEnd4 p y h1 h2, yearRow_fvEnd8 p y h1 h2,
    le_max_right _ _, le_max_right _ _⟩

/-- Claim C3, witness: the statement instantiated at the concrete one-year
policy, year 1. -/
theorem claim_C3_witness :
    (1 : ℕ) ≤ 1 ∧ 1 ≤ pw.policyTerm ∧
    (yearRow pw 1).deathBen4 = max (yearRow pw 1).fvEnd4 pw.sumAssured ∧
    pw.sumAssured ≤ (yearRow pw 1).deathBen4 :=
  ⟨le_refl 1, by decide, (claim_C3 pw 1 (by decide) (by decide)).1,
    (claim_C3 pw 1 (by decide) (by decide)).2.2.2.2.2.2.1⟩

/-- Claim C4: the recorded allocation charge of a month is zero whenever the
recorded premium of that month is zero, and when the premium is positive it
equals the premium times 6 percent in policy year 1, times 4 percent in years
2 through 5, and times 0 percent in every later year. -/
theorem claim_C4 (p : Params) (m k : ℕ) (hk : k < m) :
    ((runMonths p m).prems.getD k 0 = 0 → (runMonths p m).pacs.getD k 0 = 0) ∧
    (0 < (runMonths p m).prems.getD k 0 →
      (runMonths p m).pacs.getD k 0 =
        (runMonths p m).prems.getD k 0 *
          (if yearOfMonth (k + 1) = 1 then 6 / 100
           else if 2 ≤ yearOfMonth (k + 1) ∧ yearOfMonth (k + 1) ≤ 5 then 4 / 100
           else 0)) := by
  rw [prems_getD p m k hk, pacs_getD p m k hk]
  constructor
  · intro h0
    unfold pacFor
    rw [h0, zero_mul]
  · intro hpos
    unfold pacFor pacPctFor
    rw [if_pos hpos]

/-- Claim C4, witness: month 1 of the small policy, where the premium is paid
and the year-1 rate of 6 percent applies. -/
theorem claim_C4_witness :
    (0 : ℕ) < 1 ∧ 0 < (runMonths pw 1).prems.getD 0 0 ∧
    (runMonths pw 1).pacs.getD 0 0 =
      (runMonths pw 1).prems.getD 0 0 *
        (if yearOfMonth (0 + 1) = 1 then 6 / 100
         else if 2 ≤ yearOfMonth (0 + 1) ∧ yearOfMonth (0 + 1) ≤ 5 then 4 / 100
         else 0) :=
  ⟨by decide, by with_unfolding_all decide,
    (claim_C4 pw 1 0 (by decide)).2 (by with_unfolding_all decide)⟩

/-- Claim C5: the recorded GST of every month, in both scenarios, is exactly
18 percent of that month mortality charge plus allocation charge plus admin
charge; the fund-management drag enters the growth rate only and is not part
of the GST base. -/
theorem claim_C5 (p : Params) (m k : ℕ) (hk : k < m) :
    (runMonths p m).gsts4.getD k 0 =
      18 / 100 * ((runMonths p m).morts4.getD k 0 +
        ((runMonths p m).pacs.getD k 0 + (runMonths p m).admins.getD k 0)) ∧
    (runMonths p m).gsts8.getD k 0 =
      18 / 100 * ((runMonths p m).morts8.getD k 0 +
        ((runMonths p m).pacs.getD k 0 + (runMonths p m).admins.getD k 0)) := by
  rw [gsts4_getD p m k hk, gsts8_getD p m k hk, morts4_getD p m k hk,
    morts8_getD p m k hk, pacs_getD p m k hk, admins_getD p m k hk]
  exact ⟨rfl, rfl⟩

/-- Claim C5, witness: the GST relation instantiated at month 1 of the small
policy. -/
theorem claim_C5_witness :
    (0 : ℕ) < 1 ∧
    ((runMonths pw 1).gsts4.getD 0 0 =
      18 / 100 * ((runMonths pw 1).morts4.getD 0 0 +
        ((runMonths pw 1).pacs.getD 0 0 + (runMonths pw 1).admins.getD 0 0)) ∧
     (runMonths pw 1).gsts8.getD 0 0 =
      18 / 100 * ((runMonths pw 1).morts8.getD 0 0 +
        ((runMonths pw 1).pacs.getD 0 0 + (runMonths pw 1).admins.getD 0 0))) :=
  ⟨by decide, claim_C5 pw 1 0 (by decide)⟩

/-- Claim C6, counterexample: in the annual-resolution engine modelled from
the spec, at the concrete scenario the year-1 ending balance of the 4 percent
scenario is not within 1 currency unit of the claimed 96393.27: the claimed
figure matches neither the claimed formula (94000 times 1.04 times 0.9865 is
96440.24) nor the pipeline value, which also deducts the year admin,
mortality and GST charges. -/
theorem claim_C6_counterexample :
    ¬ |(runAnnual p6 (4 / 100) 1).balance - 9639327 / 100| < 1 := by
  with_unfolding_all decide

/-- Claim C6, amended: at the concrete scenario the year-1 allocation charge
is 6000 and the net invested amount is 94000; the year-1 post-growth fund is
94000 times 1.04 times (1 - 0.0135) = 96440.24, and the year-1 ending balance
after the pipeline admin, mortality and GST deductions is exactly
57716899677 / 625000 = 92347.0394832 for the 4 percent scenario and
120075820483 / 1250000 = 96060.6563864 for the 8 percent scenario. -/
theorem claim_C6_amended :
    (aRec p6 (4 / 100) 0 1).pac = 6000 ∧ (aRec p6 (4 / 100) 0 1).net = 94000 ∧
    (aRec p6 (4 / 100) 0 1).postGrowth = 94000 * (1 + 4 / 100) * (1 - 135 / 10000) ∧
    (runAnnual p6 (4 / 100) 1).balance = 57716899677 / 625000 ∧
    (runAnnual p6 (8 / 100) 1).balance = 120075820483 / 1250000 := by
  norm_num [runAnnual, annualStep, aRec, annualAdds, avgLastN, p6, max_def]

/-- Claim C7: with a nonnegative premium and the high-scenario monthly rate
at least the low-scenario monthly rate (as follows from a larger assumed
annual return) and a nonnegative monthly growth factor, the maturity fund
value of the 8 percent scenario is at least that of the 4 percent scenario. -/
theorem claim_C7 (p : Params) (hP : 0 ≤ p.annualPremium)
    (hr : p.monthlyReturn4 ≤ p.monthlyReturn8)
    (hg : 0 ≤ 1 + (p.monthlyReturn4 - monthlyFmc p)) :
    (runMonths p (12 * p.policyTerm)).fv4 ≤ (runMonths p (12 * p.policyTerm)).fv8 :=
  (ordered_run p hP hr hg (12 * p.policyTerm)).1

/-- Claim C7, witness: the scenario ordering instantiated at the small
one-year policy with rates 1 and 2 percent per month. -/
theorem claim_C7_witness :
    0 ≤ pw.annualPremium ∧ pw.monthlyReturn4 ≤ pw.monthlyReturn8 ∧
    0 ≤ 1 + (pw.monthlyReturn4 - monthlyFmc pw) ∧
    (runMonths pw (12 * pw.policyTerm)).fv4 ≤ (runMonths pw (12 * pw.policyTerm)).fv8 :=
  ⟨by norm_num [pw], by norm_num [pw], by norm_num [pw, monthlyFmc],
    claim_C7 pw (by norm_num [pw]) (by norm_num [pw]) (by norm_num [pw, monthlyFmc])⟩

/-- Claim C8: when the premium paying term is exactly 5 years, every recorded
loyalty addition of the run is zero, and the loyalty addition function is
identically zero for every year and history, hence zero in both scenarios. -/
theorem claim_C8 (p : Params) (h : p.ppt = 5) :
    (∀ m, (runMonths p m).loys = List.replicate m 0) ∧
    ∀ (py : ℕ) (l : List ℚ), loyAdd p.ppt py l = 0 := by
  have hz : ∀ (py : ℕ) (l : List ℚ), loyAdd p.ppt py l = 0 := by
    intro py l
    unfold loyAdd
    rw [if_pos h]
  refine ⟨?_, hz⟩
  intro m
  induction m with
  | zero => rfl
  | succ n ih =>
      rw [runMonths, step_loys, ih]
      have hz0 : loyRec p (runMonths p n) (n + 1) = 0 := by
        unfold loyRec
        split
        · exact hz _ _
        · rfl
      rw [hz0, List.replicate_succ']

/-- Claim C8, witness: a 5-year paying term policy has an all-zero loyalty
record after 12 months, and a zero loyalty addition at an arbitrary year and
history. -/
theorem claim_C8_witness :
    pw5.ppt = 5 ∧ (runMonths pw5 12).loys = List.replicate 12 0 ∧
    loyAdd pw5.ppt 7 [5] = 0 :=
  ⟨by decide, (claim_C8 pw5 (by decide)).1 12, (claim_C8 pw5 (by decide)).2 7 [5]⟩

/-- Claim C9: the recorded booster addition of a month is zero unless the
month is a year-end month of a policy year that is a multiple of 5 and at
least 10, and at such years the booster addition is 2.75 percent of the
average fund over the trailing 60 months, or over all available months when
fewer than 60 exist. -/
theorem claim_C9 :
    (∀ (p : Params) (m k : ℕ), k < m →
        ¬((k + 1) % 12 = 0 ∧ 10 ≤ (k + 1) / 12 ∧ (k + 1) / 12 % 5 = 0) →
        (runMonths p m).boos.getD k 0 = 0) ∧
    ∀ (py : ℕ) (l : List ℚ), 10 ≤ py → py % 5 = 0 →
        boosterAdd py l = 275 / 10000 * avgLastN l 60 := by
  constructor
  · intro p m k hk hcond
    rw [boos_getD p m k hk]
    unfold booRec
    by_cases h12 : (k + 1) % 12 = 0
    · rw [if_pos h12]
      unfold boosterAdd
      rw [if_neg (fun hc => hcond ⟨h12, hc⟩)]
    · rw [if_neg h12]
  · intro py l hy h5
    unfold boosterAdd
    rw [if_pos ⟨hy, h5⟩]

/-- Claim C9, witness: month 1 is not a booster month so its record is zero,
and at year 10 the booster equals its rate times the trailing average. -/
theorem claim_C9_witness :
    ((0 : ℕ) < 1 ∧ ¬((0 + 1) % 12 = 0 ∧ 10 ≤ (0 + 1) / 12 ∧ (0 + 1) / 12 % 5 = 0) ∧
      (runMonths pw 1).boos.getD 0 0 = 0) ∧
    ((10 : ℕ) ≤ 10 ∧ 10 % 5 = 0 ∧ boosterAdd 10 [2] = 275 / 10000 * avgLastN [2] 60) :=
  ⟨⟨by decide, by decide, claim_C9.1 pw 1 0 (by decide) (by decide)⟩,
   ⟨by decide, by decide, claim_C9.2 10 [2] (by decide) (by decide)⟩⟩

/-- Claim C10: for every policy year strictly beyond the premium paying term
the loyalty addition is zero, both as the addition function applied to any
history (hence in both scenarios) and as the recorded value of the run. -/
theorem claim_C10 :
    (∀ (p : Params) (py : ℕ) (l : List ℚ), p.ppt < py → loyAdd p.ppt py l = 0) ∧
    ∀ (p : Params) (m k : ℕ), k < m → p.ppt < yearOfMonth (k + 1) →
      (runMonths p m).loys.getD k 0 = 0 := by
  have h1 : ∀ (p : Params) (py : ℕ) (l : List ℚ), p.ppt < py → loyAdd p.ppt py l = 0 := by
    intro p py l hlt
    unfold loyAdd
    split
    · rfl
    · rw [if_neg (fun hc => absurd hc.2 (by omega))]
  refine ⟨h1, ?_⟩
  intro p m k hk hlt
  rw [loys_getD p m k hk]
  unfold loyRec
  by_cases h12 : (k + 1) % 12 = 0
  · rw [if_pos h12]
    apply h1
    unfold yearOfMonth at hlt
    omega
  · rw [if_neg h12]

/-- Claim C10, witness: with a zero paying term, year 1 already exceeds it and
both the loyalty function and the recorded month-1 loyalty are zero. -/
theorem claim_C10_witness :
    (pw0.ppt < 1 ∧ loyAdd pw0.ppt 1 [3] = 0) ∧
    ((0 : ℕ) < 1 ∧ pw0.ppt < yearOfMonth (0 + 1) ∧ (runMonths pw0 1).loys.getD 0 0 = 0) :=
  ⟨⟨by decide, claim_C10.1 pw0 1 [3] (by decide)⟩,
   ⟨by decide, by decide, claim_C10.2 pw0 1 0 (by decide) (by decide)⟩⟩

end Calc4
